import Mathlib

/-!
Shallow embedding of the Wechaty session lifecycle controller
(src/src/wechaty.ts): the singleton accessor, the session state machine,
driver construction and binding inside initPuppet, the event relay, the
init/quit lifecycle operations, and the delegation operations
(send, self, ding, reset, logout).

Asynchronous driver calls are modelled by passing the outcome of the awaited
driver operation as an explicit `Except String _` parameter. Each lifecycle
operation returns its result, the post-state, and a trace of the observable
actions it performed (factory invocation, relay attachment, reference writes,
the awaited driver calls, and error reports to the observability sink).
-/

/-- Lifecycle states of the session state machine: the StateSwitch is
instantiated as StateSwitch "standby" "ready" with initial state standby. -/
inductive LifeState
  | standby
  | ready
deriving DecidableEq, Repr

/-- Modelled from the spec: the Session State Machine is the external
state-switch package (not present under the sources). Per the spec it is a
pair (current, target) of lifecycle states plus a boolean transition-in-
progress flag; the call current(s, stable) sets the current state together
with the stability flag, current() reads it back, and inprocess() is the
negation of the stability flag. -/
structure StateSwitch where
  current : LifeState
  target : LifeState
  stable : Bool
deriving DecidableEq, Repr

/-- Modelled from the spec: state.target(s) records the desired state. -/
def StateSwitch.setTarget (s : StateSwitch) (t : LifeState) : StateSwitch :=
  { s with target := t }

/-- Modelled from the spec: state.current(c, stable) sets the current state
and the stability flag; the source calls it with stable = false for the
optimistic flip and with the default stable = true to settle. -/
def StateSwitch.setCurrent (s : StateSwitch) (c : LifeState) (st : Bool) : StateSwitch :=
  { s with current := c, stable := st }

/-- Modelled from the spec: state.inprocess() is true while a transition is
in progress, i.e. while the current state is not stable. -/
def StateSwitch.inprocess (s : StateSwitch) : Bool :=
  !s.stable

/-- The freshly constructed state machine: standby, stable. -/
def StateSwitch.initial : StateSwitch :=
  { current := .standby, target := .standby, stable := true }

/-- PuppetSetting from wechaty.ts: head, puppet (driver kind) and profile are
all optional; head and puppet kinds are string names. -/
structure PuppetSetting where
  head : Option String
  puppet : Option String
  profile : Option String
deriving DecidableEq, Repr

/-- The empty setting, corresponding to the defaulted constructor argument. -/
def PuppetSetting.empty : PuppetSetting :=
  { head := none, puppet := none, profile := none }

/-- A setting is non-empty when at least one field is supplied. -/
def PuppetSetting.nonEmpty (s : PuppetSetting) : Prop :=
  s.head.isSome = true ∨ s.puppet.isSome = true ∨ s.profile.isSome = true

instance (s : PuppetSetting) : Decidable s.nonEmpty := by
  unfold PuppetSetting.nonEmpty
  infer_instance

/-- The concrete driver instance constructed by the factory branch of
initPuppet: new PuppetWeb with the head and profile from the setting. -/
structure Puppet where
  head : String
  profile : Option String
deriving DecidableEq, Repr

/-- Errors surfaced by the controller, one constructor per distinct throw
site in wechaty.ts. driverFailure wraps an error thrown by the bound driver
during an awaited driver operation. -/
inductive WechatyError
  | alreadyInstance
  | noHead
  | unsupportedPuppet (kind : Option String)
  | invalidLifecycleState
  | noPuppet
  | driverFailure (msg : String)
deriving DecidableEq, Repr

/-- Observable actions of the lifecycle operations, in source order:
logAlreadyInited is the early-return log of init(); constructDriver is the
factory invocation (new PuppetWeb); attachRelay installs the ten relay
subscriptions; bindPuppet writes this.puppet; registerPuppet writes the
global config.puppetInstance slot; driverInit and driverQuit are the awaited
driver calls; clearPuppet writes this.puppet = null; report is
Raven.captureException. -/
inductive LifeAction
  | logAlreadyInited
  | constructDriver (head : String) (profile : Option String)
  | attachRelay
  | bindPuppet (p : Puppet)
  | registerPuppet (p : Option Puppet)
  | driverInit
  | clearPuppet
  | driverQuit
  | report (e : WechatyError)
deriving DecidableEq, Repr

/-- The controller handle: the defaulted and normalized setting and the uuid
fixed by the constructor, the mutable driver reference this.puppet, the
session state machine, and - carried alongside for the ownership claims -
the globally accessible config.puppetInstance registry slot that
initPuppet and quit write (wechaty.ts lines 356 and 383). -/
structure Wechaty where
  setting : PuppetSetting
  uuid : String
  puppet : Option Puppet
  state : StateSwitch
  configPuppet : Option Puppet
deriving DecidableEq, Repr

/-- JavaScript defaulting a or b for optional strings. -/
def orD (a b : Option String) : Option String :=
  match a with
  | some x => some x
  | none => b

/-- Profile normalization in the constructor: a supplied profile keeps its
name when it already ends in ".wechaty.json" (case-insensitively, per the
regex), and gets the suffix appended otherwise. -/
def normalizeProfile (p : String) : String :=
  if p.toLower.endsWith ".wechaty.json" then p else p ++ ".wechaty.json"

/-- The private constructor: defaults each setting field from the config
module defaults, normalizes the profile, stores the uuid, and starts with no
bound driver and a standby state machine. The config defaults (config.head,
config.puppet, config.profile) are passed as a parameter since config.ts is
outside the sources. The global registry slot starts empty. -/
def mkWechaty (setting defaults : PuppetSetting) (uuid : String) : Wechaty :=
  let head := orD setting.head defaults.head
  let pup := orD setting.puppet defaults.puppet
  let prof := (orD setting.profile defaults.profile).map normalizeProfile
  { setting := { head := head, puppet := pup, profile := prof }
    uuid := uuid
    puppet := none
    state := StateSwitch.initial
    configPuppet := none }

/-- Wechaty.instance(setting?): throws when a setting is passed while the
singleton already exists; otherwise constructs the singleton on first call
and returns it. The stored singleton is threaded explicitly: the function
returns the handle together with the updated singleton slot. -/
def getInstance (setting : Option PuppetSetting) (inst : Option Wechaty)
    (defaults : PuppetSetting) (uuid : String) :
    Except WechatyError (Wechaty × Option Wechaty) :=
  if setting.isSome ∧ inst.isSome then
    .error .alreadyInstance
  else
    match inst with
    | some w => .ok (w, some w)
    | none =>
      let w := mkWechaty (setting.getD PuppetSetting.empty) defaults uuid
      .ok (w, some w)

/-- The fixed list of relayed event names installed by initPuppet. -/
def eventList : List String :=
  ["error", "friend", "heartbeat", "login", "logout", "message",
   "room-join", "room-leave", "room-topic", "scan"]

/-- A driver event emission: an event name and its ordered argument list. -/
structure EventRecord where
  name : String
  args : List String
deriving DecidableEq, Repr

/-- Controller-level emissions produced by one driver emission: initPuppet
installs, for each name in eventList, a handler that re-emits the event
under the same name with the same arguments; an emission whose name has no
installed handler produces nothing. -/
def relayOne (e : EventRecord) : List EventRecord :=
  if e.name ∈ eventList then [e] else []

/-- Controller-level emissions produced by a sequence of driver emissions,
in emission order (the relay dispatches synchronously, same turn). -/
def relay : List EventRecord → List EventRecord
  | [] => []
  | e :: es => relayOne e ++ relay es

/-- Wechaty.initPuppet: fails with noHead when the setting has no head;
constructs a PuppetWeb for the "web" kind and fails with unsupportedPuppet
naming the requested kind otherwise; then attaches the relay, binds
this.puppet, publishes the driver to config.puppetInstance, and awaits the
driver initialization, whose outcome is the drvInit parameter. -/
def Wechaty.initPuppet (w : Wechaty) (drvInit : Except String Unit) :
    Except WechatyError Puppet × Wechaty × List LifeAction :=
  match w.setting.head with
  | none => (.error .noHead, w, [])
  | some h =>
    if w.setting.puppet = some "web" then
      let p : Puppet := { head := h, profile := w.setting.profile }
      let w1 := { w with puppet := some p, configPuppet := some p }
      let tr : List LifeAction :=
        [.constructDriver h w.setting.profile, .attachRelay,
         .bindPuppet p, .registerPuppet (some p), .driverInit]
      match drvInit with
      | .ok _ => (.ok p, w1, tr)
      | .error e => (.error (.driverFailure e), w1, tr)
    else
      (.error (.unsupportedPuppet w.setting.puppet), w, [])

/-- Wechaty.init: returns immediately (logging) when the current state is
already ready; otherwise sets the target to ready, optimistically flips the
current state to ready with the transition still in progress, runs
initPuppet, and on failure reports the error and rethrows, while on success
settles the state machine to a stable ready. -/
def Wechaty.init (w : Wechaty) (drvInit : Except String Unit) :
    Except WechatyError Unit × Wechaty × List LifeAction :=
  if w.state.current = LifeState.ready then
    (.ok (), w, [.logAlreadyInited])
  else
    let w1 := { w with state := (w.state.setTarget .ready).setCurrent .ready false }
    match w1.initPuppet drvInit with
    | (.error e, w2, tr) => (.error e, w2, tr ++ [.report e])
    | (.ok _, w2, tr) =>
      (.ok (), { w2 with state := w2.state.setCurrent .ready true }, tr)

/-- Wechaty.quit: fails with invalidLifecycleState unless the current state
is ready and no transition is in progress; sets the target to standby and
optimistically flips the current state; returns with a warning when no
driver is bound; otherwise clears this.puppet and the global registry before
awaiting the driver teardown (outcome drvQuit), reporting and rethrowing a
teardown failure, and settles the state machine only on success. -/
def Wechaty.quit (w : Wechaty) (drvQuit : Except String Unit) :
    Except WechatyError Unit × Wechaty × List LifeAction :=
  if w.state.current ≠ LifeState.ready ∨ w.state.inprocess = true then
    (.error .invalidLifecycleState, w, [])
  else
    let w1 := { w with state := (w.state.setTarget .standby).setCurrent .standby false }
    match w1.puppet with
    | none => (.ok (), w1, [])
    | some _ =>
      let w2 := { w1 with puppet := none, configPuppet := none }
      let tr : List LifeAction := [.clearPuppet, .registerPuppet none, .driverQuit]
      match drvQuit with
      | .ok _ => (.ok (), { w2 with state := w2.state.setCurrent .standby true }, tr)
      | .error e => (.error (.driverFailure e), w2, tr ++ [.report (.driverFailure e)])

/-- Wechaty.send: fails with noPuppet when no driver is bound; otherwise
delegates to the driver (outcome drv), reporting and rethrowing a failure. -/
def Wechaty.send (w : Wechaty) (drv : Except String Bool) :
    Except WechatyError Bool × List LifeAction :=
  match w.puppet with
  | none => (.error .noPuppet, [])
  | some _ =>
    match drv with
    | .ok b => (.ok b, [])
    | .error e => (.error (.driverFailure e), [.report (.driverFailure e)])

/-- Wechaty.self: fails with noPuppet when no driver is bound; otherwise
returns the identity the driver reports (parameter drvSelf). -/
def Wechaty.self (w : Wechaty) (drvSelf : String) : Except WechatyError String :=
  match w.puppet with
  | none => .error .noPuppet
  | some _ => .ok drvSelf

/-- Wechaty.ding: rejects with noPuppet when no driver is bound; otherwise
delegates the liveness probe, reporting and rethrowing a failure. -/
def Wechaty.ding (w : Wechaty) (drv : Except String String) :
    Except WechatyError String × List LifeAction :=
  match w.puppet with
  | none => (.error .noPuppet, [])
  | some _ =>
    match drv with
    | .ok s => (.ok s, [])
    | .error e => (.error (.driverFailure e), [.report (.driverFailure e)])

/-- Wechaty.reset: fails with noPuppet when no driver is bound; otherwise
awaits the driver reset, propagating its failure unwrapped by any catch. -/
def Wechaty.reset (w : Wechaty) (reason : Option String) (drv : Except String Unit) :
    Except WechatyError Unit :=
  match w.puppet with
  | none => .error .noPuppet
  | some _ =>
    match drv with
    | .ok _ => .ok ()
    | .error e => .error (.driverFailure e)

/-- Wechaty.logout: fails with noPuppet when no driver is bound; otherwise
awaits the driver logout, reporting and rethrowing a failure. -/
def Wechaty.logout (w : Wechaty) (drv : Except String Unit) :
    Except WechatyError Unit × List LifeAction :=
  match w.puppet with
  | none => (.error .noPuppet, [])
  | some _ =>
    match drv with
    | .ok _ => (.ok (), [])
    | .error e => (.error (.driverFailure e), [.report (.driverFailure e)])

/-- Results and traces of a sequence of init() calls with no intervening
quit(), one driver-init outcome per call, threading the controller state. -/
def initSeq (w : Wechaty) : List (Except String Unit) →
    List (Except WechatyError Unit × List LifeAction)
  | [] => []
  | o :: os =>
    let r := w.init o
    (r.1, r.2.2) :: initSeq r.2.1 os

/-- A concrete setting selecting the supported web driver kind. -/
def webSetting : PuppetSetting :=
  { head := some "chrome", puppet := some "web", profile := none }

/-- A freshly constructed controller with the web setting. -/
def demoStandby : Wechaty :=
  mkWechaty webSetting PuppetSetting.empty "uuid-demo"

/-- The controller after one successful initialization. -/
def demoReady : Wechaty :=
  (demoStandby.init (Except.ok ())).2.1

/-- A standby controller that nonetheless has a bound driver, exercising the
quit() guard independently of driver binding. -/
def demoStandbyBound : Wechaty :=
  { demoStandby with
      puppet := some { head := "chrome", profile := none }
      configPuppet := some { head := "chrome", profile := none } }

/-- A settled ready controller with no bound driver, exercising the
no-driver early return of quit(). -/
def demoReadyNoPuppet : Wechaty :=
  { demoReady with puppet := none, configPuppet := none }

/-- A controller whose defaulted setting ended up with no head mode. -/
def demoNoHead : Wechaty :=
  mkWechaty PuppetSetting.empty PuppetSetting.empty "uuid-nohead"

/-- A controller requesting an unsupported driver kind. -/
def demoUnsupported : Wechaty :=
  mkWechaty
    { head := some "chrome", puppet := some "android", profile := none }
    PuppetSetting.empty "uuid-android"

theorem initPuppet_state (w : Wechaty) (o : Except String Unit) :
    ((w.initPuppet o).2.1).state = w.state := by
  unfold Wechaty.initPuppet
  cases w.setting.head with
  | none => rfl
  | some hd =>
    dsimp only
    by_cases hp : w.setting.puppet = some "web"
    · rw [if_pos hp]
      cases o <;> rfl
    · rw [if_neg hp]

theorem init_noop_of_ready (w : Wechaty) (o : Except String Unit)
    (h : w.state.current = LifeState.ready) :
    w.init o = (.ok (), w, [LifeAction.logAlreadyInited]) := by
  unfold Wechaty.init
  rw [if_pos h]

theorem init_current_ready (w : Wechaty) (o : Except String Unit) :
    ((w.init o).2.1).state.current = LifeState.ready := by
  by_cases h : w.state.current = LifeState.ready
  · rw [init_noop_of_ready w o h]
    exact h
  · unfold Wechaty.init
    rw [if_neg h]
    simp only []
    rcases hp : Wechaty.initPuppet _ o with ⟨r, w2, tr⟩
    have hs := initPuppet_state { w with state := (w.state.setTarget .ready).setCurrent .ready false } o
    rw [hp] at hs
    cases r <;> simp_all [StateSwitch.setCurrent, StateSwitch.setTarget]

/-- C1: initialize() is an idempotent no-op once the current state is ready:
the call logs and returns success leaving the controller untouched, and in
any sequence of init() calls every call after the first returns success with
only the log action, so the factory is never re-invoked. -/
theorem C1_init_idempotent (w : Wechaty) (o : Except String Unit)
    (os : List (Except String Unit)) :
    (w.state.current = LifeState.ready →
      w.init o = (.ok (), w, [LifeAction.logAlreadyInited])) ∧
    initSeq (w.init o).2.1 os =
      os.map (fun _ => (Except.ok (), [LifeAction.logAlreadyInited])) := by
  refine ⟨init_noop_of_ready w o, ?_⟩
  have key : ∀ (os : List (Except String Unit)) (v : Wechaty),
      v.state.current = LifeState.ready →
      initSeq v os = os.map (fun _ => (Except.ok (), [LifeAction.logAlreadyInited])) := by
    intro os
    induction os with
    | nil => intro v _; rfl
    | cons o2 os ih =>
      intro v hv
      unfold initSeq
      rw [init_noop_of_ready v o2 hv]
      simp [ih v hv]
  exact key os _ (init_current_ready w o)

theorem C1_witness :
    demoReady.init (Except.ok ()) = (.ok (), demoReady, [LifeAction.logAlreadyInited]) ∧
    initSeq (demoStandby.init (Except.ok ())).2.1 [Except.ok (), Except.error "late"] =
      [(Except.ok (), [LifeAction.logAlreadyInited]),
       (Except.ok (), [LifeAction.logAlreadyInited])] := by
  constructor
  · exact (C1_init_idempotent demoReady (Except.ok ()) []).1 (by decide)
  · exact (C1_init_idempotent demoStandby (Except.ok ())
      [Except.ok (), Except.error "late"]).2

/-- C2: quit() fails with the invalid-lifecycle-state error whenever the
current state is not ready or a transition is in progress, leaving the state
machine and the driver reference unchanged; in particular a quit() in
standby fails this way regardless of driver binding. -/
theorem C2_quit_guard (w : Wechaty) (o : Except String Unit)
    (h : w.state.current ≠ LifeState.ready ∨ w.state.inprocess = true) :
    w.quit o = (.error .invalidLifecycleState, w, []) := by
  unfold Wechaty.quit
  rw [if_pos h]

theorem C2_witness :
    demoStandbyBound.quit (Except.ok ()) =
      (.error .invalidLifecycleState, demoStandbyBound, []) :=
  C2_quit_guard demoStandbyBound (Except.ok ()) (Or.inl (by decide))

theorem init_failure_reports (w : Wechaty) (o : Except String Unit) (err : WechatyError)
    (h : (w.init o).1 = .error err) :
    LifeAction.report err ∈ (w.init o).2.2 := by
  by_cases hr : w.state.current = LifeState.ready
  · rw [init_noop_of_ready w o hr] at h
    exact absurd h (by simp)
  · simp only [Wechaty.init, if_neg hr] at h ⊢
    split at h <;> simp_all

/-- C3: when initialize() fails (driver construction or driver start-up),
the error is reported to the observability sink and rethrown, and the
optimistic flip is not rolled back: the state machine still reports current
state ready afterwards. -/
theorem C3_init_failure (w : Wechaty) (o : Except String Unit) (err : WechatyError)
    (h : (w.init o).1 = .error err) :
    (w.init o).2.1.state.current = LifeState.ready ∧
    LifeAction.report err ∈ (w.init o).2.2 :=
  ⟨init_current_ready w o, init_failure_reports w o err h⟩

theorem C3_witness :
    (demoStandby.init (Except.error "boom")).1 =
      Except.error (WechatyError.driverFailure "boom") ∧
    (demoStandby.init (Except.error "boom")).2.1.state.current = LifeState.ready ∧
    LifeAction.report (WechatyError.driverFailure "boom") ∈
      (demoStandby.init (Except.error "boom")).2.2 :=
  ⟨rfl, C3_init_failure demoStandby (Except.error "boom")
    (WechatyError.driverFailure "boom") rfl⟩

/-- C4: the event relay forwards every driver emission whose name is in the
fixed ten-name set unchanged: the controller-level emission sequence equals
the driver emission sequence, so each emission is forwarded exactly once
with identical name and arguments and ordering is preserved across
interleaved names. -/
theorem C4_relay_roundtrip (es : List EventRecord)
    (h : ∀ e ∈ es, e.name ∈ eventList) :
    relay es = es := by
  induction es with
  | nil => rfl
  | cons e es ih =>
    have he : e.name ∈ eventList := h e (List.mem_cons_self e es)
    simp only [relay, relayOne, if_pos he, List.singleton_append, List.cons.injEq, true_and]
    exact ih fun x hx => h x (List.mem_cons_of_mem e hx)

theorem C4_witness :
    relay [EventRecord.mk "scan" ["xurl", "200"],
           EventRecord.mk "message" ["hi"],
           EventRecord.mk "scan" ["xurl2", "201"]] =
      [EventRecord.mk "scan" ["xurl", "200"],
       EventRecord.mk "message" ["hi"],
       EventRecord.mk "scan" ["xurl2", "201"]] :=
  C4_relay_roundtrip _ (by decide)

/-- C5: the singleton accessor constructs the handle on first call with the
given configuration, fails with the already-initialized error when a
non-empty configuration is passed while an instance exists, and returns the
stored handle when called with no configuration. -/
theorem C5_singleton (s : PuppetSetting) (w : Wechaty)
    (defaults : PuppetSetting) (u : String) (hs : s.nonEmpty) :
    getInstance (some s) (some w) defaults u = .error .alreadyInstance ∧
    getInstance none (some w) defaults u = .ok (w, some w) ∧
    getInstance (some s) none defaults u =
      .ok (mkWechaty s defaults u, some (mkWechaty s defaults u)) := by
  refine ⟨?_, ?_, ?_⟩ <;> simp [getInstance]

theorem C5_witness :
    webSetting.nonEmpty ∧
    getInstance (some webSetting) (some demoStandby) PuppetSetting.empty "u2" =
      .error .alreadyInstance ∧
    getInstance none (some demoStandby) PuppetSetting.empty "u2" =
      .ok (demoStandby, some demoStandby) ∧
    getInstance (some webSetting) none PuppetSetting.empty "u2" =
      .ok (mkWechaty webSetting PuppetSetting.empty "u2",
           some (mkWechaty webSetting PuppetSetting.empty "u2")) := by
  have hs : webSetting.nonEmpty := by decide
  exact ⟨hs, C5_singleton webSetting demoStandby PuppetSetting.empty "u2" hs⟩

/-- C6: on the bound-driver path of quit(), the driver reference (and the
global registry slot) is cleared before the teardown is awaited - the
clearPuppet write is the first trace action and the awaited driverQuit comes
after it - and after quit() returns or throws the reference stays null; a
teardown failure is reported to the sink and rethrown without restoring the
reference. -/
theorem C6_quit_clears_first (w : Wechaty) (p : Puppet) (o : Except String Unit)
    (h1 : w.state.current = LifeState.ready) (h2 : w.state.inprocess = false)
    (h3 : w.puppet = some p) :
    (w.quit o).2.1.puppet = none ∧
    (w.quit o).2.1.configPuppet = none ∧
    ((w.quit o).2.2)[0]? = some LifeAction.clearPuppet ∧
    ((w.quit o).2.2)[2]? = some LifeAction.driverQuit ∧
    (∀ e, o = .error e →
      (w.quit o).1 = .error (.driverFailure e) ∧
      LifeAction.report (.driverFailure e) ∈ (w.quit o).2.2) := by
  have hng : ¬(w.state.current ≠ LifeState.ready ∨ w.state.inprocess = true) := by
    simp [h1, h2]
  simp only [Wechaty.quit, if_neg hng, h3]
  cases o <;> simp

theorem C6_witness :
    (demoReady.quit (Except.error "tearfail")).2.1.puppet = none ∧
    (demoReady.quit (Except.error "tearfail")).2.1.configPuppet = none ∧
    ((demoReady.quit (Except.error "tearfail")).2.2)[0]? = some LifeAction.clearPuppet ∧
    ((demoReady.quit (Except.error "tearfail")).2.2)[2]? = some LifeAction.driverQuit ∧
    (demoReady.quit (Except.error "tearfail")).1 =
      .error (.driverFailure "tearfail") ∧
    LifeAction.report (.driverFailure "tearfail") ∈
      (demoReady.quit (Except.error "tearfail")).2.2 := by
  have h := C6_quit_clears_first demoReady (Puppet.mk "chrome" none)
    (Except.error "tearfail") rfl rfl rfl
  exact ⟨h.1, h.2.1, h.2.2.1, h.2.2.2.1,
    (h.2.2.2.2 "tearfail" rfl).1, (h.2.2.2.2 "tearfail" rfl).2⟩

/-- C7: the factory step of initPuppet is all-or-nothing: a missing head
fails with the configuration error and a driver kind other than web fails
with the unsupported-driver error naming the requested kind, in both cases
with the controller state unchanged and an empty action trace, so no
construction side effect occurs. -/
theorem C7_factory (w : Wechaty) (o : Except String Unit) :
    (w.setting.head = none →
      w.initPuppet o = (.error .noHead, w, [])) ∧
    (∀ hd, w.setting.head = some hd → w.setting.puppet ≠ some "web" →
      w.initPuppet o = (.error (.unsupportedPuppet w.setting.puppet), w, [])) := by
  constructor
  · intro hh
    unfold Wechaty.initPuppet
    rw [hh]
  · intro hd hh hp
    unfold Wechaty.initPuppet
    rw [hh]
    dsimp only
    rw [if_neg hp]

theorem C7_witness :
    demoNoHead.initPuppet (Except.ok ()) =
      (.error .noHead, demoNoHead, []) ∧
    demoUnsupported.initPuppet (Except.ok ()) =
      (.error (.unsupportedPuppet (some "android")), demoUnsupported, []) := by
  refine ⟨(C7_factory demoNoHead (Except.ok ())).1 rfl, ?_⟩
  have h := (C7_factory demoUnsupported (Except.ok ())).2 "chrome" rfl (by decide)
  simpa using h

theorem quit_ok_puppet_none (w : Wechaty) (o : Except String Unit)
    (h : (w.quit o).1 = .ok ()) :
    (w.quit o).2.1.puppet = none := by
  by_cases hg : w.state.current ≠ LifeState.ready ∨ w.state.inprocess = true <;>
  rcases hw : w.puppet with _ | p <;>
  cases o <;>
  simp_all [Wechaty.quit]

/-- C8: every delegation operation (send, self, ding, reset, logout) fails
with the no-active-driver error when no driver is bound, and after a
successful initialize() followed by a successful quit() the driver reference
is cleared so a subsequent send() fails the same way. -/
theorem C8_delegation_guard (w v : Wechaty) (o1 o2 : Except String Unit)
    (ds : Except String Bool) (dg : Except String String)
    (dr dl : Except String Unit) (sv : String) (why : Option String)
    (hw : w.puppet = none)
    (h1 : (v.init o1).1 = .ok ())
    (h2 : (((v.init o1).2.1).quit o2).1 = .ok ()) :
    (w.send ds).1 = .error .noPuppet ∧
    w.self sv = .error .noPuppet ∧
    (w.ding dg).1 = .error .noPuppet ∧
    w.reset why dr = .error .noPuppet ∧
    (w.logout dl).1 = .error .noPuppet ∧
    ((((v.init o1).2.1).quit o2).2.1.send ds).1 = .error .noPuppet := by
  have hq := quit_ok_puppet_none ((v.init o1).2.1) o2 h2
  refine ⟨?_, ?_, ?_, ?_, ?_, ?_⟩ <;>
    simp [Wechaty.send, Wechaty.self, Wechaty.ding, Wechaty.reset,
      Wechaty.logout, hw, hq]

theorem C8_witness :
    (demoStandby.send (Except.ok true)).1 = .error .noPuppet ∧
    demoStandby.self "me" = .error .noPuppet ∧
    (demoStandby.ding (Except.ok "dong")).1 = .error .noPuppet ∧
    demoStandby.reset (some "why") (Except.ok ()) = .error .noPuppet ∧
    (demoStandby.logout (Except.ok ())).1 = .error .noPuppet ∧
    ((((demoStandby.init (Except.ok ())).2.1).quit
        (Except.ok ())).2.1.send (Except.ok true)).1 = .error .noPuppet :=
  C8_delegation_guard demoStandby demoStandby (Except.ok ()) (Except.ok ())
    (Except.ok true) (Except.ok "dong") (Except.ok ()) (Except.ok ())
    "me" (some "why") rfl rfl rfl

/-- C9 counterexample: after a successful initialize() from the fresh demo
controller, the globally accessible config.puppetInstance registry slot does
hold the bound driver, refuting the exclusive-ownership claim that no
component other than the controller references the driver between
initialize() and quit(). -/
theorem C9_counterexample :
    (demoStandby.init (Except.ok ())).1 = .ok () ∧
    (demoStandby.init (Except.ok ())).2.1.configPuppet =
      some (Puppet.mk "chrome" none) ∧
    LifeAction.registerPuppet (some (Puppet.mk "chrome" none)) ∈
      (demoStandby.init (Except.ok ())).2.2 := by
  refine ⟨rfl, rfl, ?_⟩
  decide

/-- C9 amended: the bound driver is referenced by the controller and,
additionally, published to the global config.puppetInstance registry: the
two references are equal after every initialize() and quit() step, a
successful initialize() leaves the registry holding the driver, and a
successful quit() clears it. -/
theorem C9_registry_mirror (w : Wechaty) (o : Except String Unit)
    (h : w.configPuppet = w.puppet) :
    (w.init o).2.1.configPuppet = (w.init o).2.1.puppet ∧
    (w.quit o).2.1.configPuppet = (w.quit o).2.1.puppet ∧
    (w.state.current ≠ LifeState.ready → (w.init o).1 = .ok () →
      ((w.init o).2.1.puppet).isSome = true) ∧
    ((w.quit o).1 = .ok () → (w.quit o).2.1.configPuppet = none) := by
  by_cases hr : w.state.current = LifeState.ready <;>
  by_cases hg : w.state.current ≠ LifeState.ready ∨ w.state.inprocess = true <;>
  rcases hh : w.setting.head with _ | hd <;>
  by_cases hp : w.setting.puppet = some "web" <;>
  rcases hw : w.puppet with _ | p <;>
  cases o <;>
  simp_all [Wechaty.init, Wechaty.quit, Wechaty.initPuppet]

theorem C9_amended_witness :
    (demoReady.quit (Except.ok ())).2.1.configPuppet =
      (demoReady.quit (Except.ok ())).2.1.puppet ∧
    ((demoStandby.init (Except.ok ())).2.1.puppet).isSome = true ∧
    (demoReady.quit (Except.ok ())).2.1.configPuppet = none := by
  have h := C9_registry_mirror demoReady (Except.ok ()) rfl
  have h2 := C9_registry_mirror demoStandby (Except.ok ()) rfl
  exact ⟨h.2.1, h2.2.2.1 (by decide) rfl, h.2.2.2 rfl⟩

/-- C10: quit() settles the state machine only on the successful-teardown
path: on the no-driver early return and on a teardown failure the final
settle is skipped, leaving current state standby with the transition still
flagged in progress, while a successful teardown leaves a stable standby. -/
theorem C10_quit_settles_only_on_success (w : Wechaty) (o : Except String Unit)
    (h1 : w.state.current = LifeState.ready) (h2 : w.state.inprocess = false) :
    (w.puppet = none →
      (w.quit o).1 = .ok () ∧
      (w.quit o).2.1.state.current = LifeState.standby ∧
      (w.quit o).2.1.state.inprocess = true) ∧
    (∀ e, w.puppet ≠ none → o = .error e →
      (w.quit o).2.1.state.current = LifeState.standby ∧
      (w.quit o).2.1.state.inprocess = true) ∧
    (w.puppet ≠ none → o = .ok () →
      (w.quit o).2.1.state.current = LifeState.standby ∧
      (w.quit o).2.1.state.inprocess = false) := by
  have hng : ¬(w.state.current ≠ LifeState.ready ∨ w.state.inprocess = true) := by
    simp [h1, h2]
  rcases hw : w.puppet with _ | p <;>
  cases o <;>
  simp_all [Wechaty.quit, StateSwitch.inprocess, StateSwitch.setCurrent,
    StateSwitch.setTarget]

theorem C10_witness :
    ((demoReadyNoPuppet.quit (Except.ok ())).1 = .ok () ∧
     (demoReadyNoPuppet.quit (Except.ok ())).2.1.state.current = LifeState.standby ∧
     (demoReadyNoPuppet.quit (Except.ok ())).2.1.state.inprocess = true) ∧
    ((demoReady.quit (Except.error "tearfail2")).2.1.state.current = LifeState.standby ∧
     (demoReady.quit (Except.error "tearfail2")).2.1.state.inprocess = true) ∧
    ((demoReady.quit (Except.ok ())).2.1.state.current = LifeState.standby ∧
     (demoReady.quit (Except.ok ())).2.1.state.inprocess = false) := by
  refine ⟨(C10_quit_settles_only_on_success demoReadyNoPuppet (Except.ok ())
    rfl rfl).1 rfl, ?_, ?_⟩
  · exact (C10_quit_settles_only_on_success demoReady (Except.error "tearfail2")
      rfl rfl).2.1 "tearfail2" (by decide) rfl
  · exact (C10_quit_settles_only_on_success demoReady (Except.ok ())
      rfl rfl).2.2 (by decide) rfl
